import Mathlib

/-!
Shallow embedding of `src/index.ts` of svelte-stored-writable.

The library wraps a Svelte `writable` (the Observable Value Cell), a zod
schema (the Validator) and `localStorage` (the Key-Value Store).  The three
collaborators are external; the embedding models

* `localStorage` as a function `String → Option String` (absent key = `none`),
* `JSON.parse` as a partial decoder `String → Option J` (`none` models a
  thrown `SyntaxError`),
* `JSON.stringify` as a total encoder `T → String`,
* `schema.parse` as a partial validator `J → Option T` (`none` models a
  thrown zod parse error),
* `w.set` / `w.update` on the wrapped writable as an in-memory update that
  synchronously notifies subscribers (the writable's own contract).

Every operation additionally returns the list of collaborator calls it makes,
in order, so that frame conditions ("no store write happens") and ordering
("the in-memory update precedes the store write") are stated over that trace.
-/

namespace SvelteStoredWritable

/-- One observable collaborator call made by the code.  `writableSet v` is the
call `w.set(v)` (or the write step of `w.update`): the wrapped writable applies
the in-memory update and synchronously notifies its subscribers with `v`.
`addStorageListener` would be the registration of a cross-context `storage`
event listener; `src/index.ts` contains no such registration, so no code path
of the embedding emits it. -/
inductive Event (T : Type) where
  | storageGetItem (key : String) (result : Option String)
  | storageSetItem (key : String) (value : String)
  | storageRemoveItem (key : String)
  | writableSet (value : T)
  | jsonParseCall (raw : String)
  | schemaParseCall
  | addStorageListener (key : String)
  deriving DecidableEq

/-- An exception escaping the construction call: `JSON.parse` throwing a
`SyntaxError`, or `schema.parse` throwing a zod validation error. -/
inductive ThrownError where
  | jsonSyntaxError
  | zodParseError
  deriving DecidableEq

/-- The external pure collaborators: `JSON.parse` (partial), `JSON.stringify`,
and zod's `schema.parse` (partial), over a decoded-JSON type `J` and the
writable's value type `T`. -/
structure Collab (J T : Type) where
  jsonParse : String → Option J
  stringify : T → String
  schemaParse : J → Option T

/-- The state a stored writable closes over: its `key`, the
`disableLocalStorage` flag, the wrapped writable's current value, and the
contents of `localStorage`. -/
structure CellState (T : Type) where
  key : String
  disableLocalStorage : Bool
  current : T
  storage : String → Option String

/-- Lines 13-23 of `src/index.ts`:

    const stored = !disableLocalStorage ? localStorage.getItem(key) : null;
    const w = writable(stored ? schema.parse(JSON.parse(stored)) : initialValue);

`stored` has TypeScript type `string | null`; the conditional `stored ? _ : _`
tests JavaScript truthiness, under which both `null` and the empty string are
falsy, so an empty stored string falls back to `initialValue` without invoking
`JSON.parse` or `schema.parse`.  A `JSON.parse` or `schema.parse` failure
escapes the whole call (`Except.error`); otherwise the returned cell closes
over `key`, the flag, the writable seeded with the parsed (or initial) value,
and the untouched storage. -/
def storedWritable (C : Collab J T) (key : String) (initialValue : T)
    (disableLocalStorage : Bool) (storage : String → Option String) :
    List (Event T) × Except ThrownError (CellState T) :=
  let stored : Option String := if !disableLocalStorage then storage key else none
  let readTrace : List (Event T) :=
    if !disableLocalStorage then [.storageGetItem key (storage key)] else []
  match stored with
  | none => (readTrace, .ok ⟨key, disableLocalStorage, initialValue, storage⟩)
  | some s =>
    if s.isEmpty then
      (readTrace, .ok ⟨key, disableLocalStorage, initialValue, storage⟩)
    else
      match C.jsonParse s with
      | none => (readTrace ++ [.jsonParseCall s], .error .jsonSyntaxError)
      | some d =>
        match C.schemaParse d with
        | none => (readTrace ++ [.jsonParseCall s, .schemaParseCall], .error .zodParseError)
        | some v =>
          (readTrace ++ [.jsonParseCall s, .schemaParseCall],
            .ok ⟨key, disableLocalStorage, v, storage⟩)

/-- Lines 29-32 of `src/index.ts`:

    function set(...args) {
      w.set(...args);
      if (!disableLocalStorage) localStorage.setItem(key, JSON.stringify(get(w)));
    }

`w.set` runs first (subscribers are notified), then — only when persistence is
enabled — the value read back from the writable is stringified and written to
storage. -/
def CellState.set (C : Collab J T) (c : CellState T) (v : T) :
    CellState T × List (Event T) :=
  let c1 : CellState T := { c with current := v }
  if !c.disableLocalStorage then
    ({ c1 with storage := fun k =>
        if k = c.key then some (C.stringify c1.current) else c1.storage k },
      [.writableSet v, .storageSetItem c.key (C.stringify c1.current)])
  else
    (c1, [.writableSet v])

/-- Lines 38-41 of `src/index.ts`:

    function update(...args) {
      w.update(...args);
      if (!disableLocalStorage) localStorage.setItem(key, JSON.stringify(get(w)));
    }

`w.update(f)` replaces the writable's value by `f` of the previous value and
notifies subscribers; then, when persistence is enabled, the new value is
stringified and written to storage. -/
def CellState.update (C : Collab J T) (c : CellState T) (f : T → T) :
    CellState T × List (Event T) :=
  let c1 : CellState T := { c with current := f c.current }
  if !c.disableLocalStorage then
    ({ c1 with storage := fun k =>
        if k = c.key then some (C.stringify c1.current) else c1.storage k },
      [.writableSet (f c.current), .storageSetItem c.key (C.stringify c1.current)])
  else
    (c1, [.writableSet (f c.current)])

/-- Lines 46-48 of `src/index.ts`:

    function clear() {
      localStorage.removeItem(key);
    }

The entire body: one unconditional `localStorage.removeItem(key)` — no guard
on `disableLocalStorage`, no `w.set`, no subscriber notification. -/
def CellState.clear (c : CellState T) : CellState T × List (Event T) :=
  ({ c with storage := fun k => if k = c.key then none else c.storage k },
    [.storageRemoveItem c.key])

/-- One call on the returned handle. -/
inductive Op (T : Type) where
  | set (v : T)
  | update (f : T → T)
  | clear

/-- Run one handle call on the state, returning the new state and the
collaborator calls it made, in order. -/
def applyOp (C : Collab J T) (c : CellState T) : Op T → CellState T × List (Event T)
  | .set v => c.set C v
  | .update f => c.update C f
  | .clear => c.clear

/-- Run a sequence of handle calls in call order, concatenating their traces. -/
def run (C : Collab J T) (c : CellState T) : List (Op T) → CellState T × List (Event T)
  | [] => (c, [])
  | op :: ops =>
    let step := applyOp C c op
    let rest := run C step.1 ops
    (rest.1, step.2 ++ rest.2)

/-- The trace of each call of a sequence, in call order. -/
def callTraces (C : Collab J T) (c : CellState T) : List (Op T) → List (List (Event T))
  | [] => []
  | op :: ops => (applyOp C c op).2 :: callTraces C (applyOp C c op).1 ops

/-- In the trace `tr`, every storage write is preceded by the in-memory
writable update carrying the very value whose encoding is being written. -/
def memUpdateBeforePersist (C : Collab J T) (tr : List (Event T)) : Prop :=
  ∀ (j : Nat) (k : String) (v : String), tr[j]? = some (Event.storageSetItem k v) →
    ∃ (i : Nat) (w : T), i < j ∧ tr[i]? = some (Event.writableSet w) ∧ v = C.stringify w

/-- Does the event write to or remove from the Key-Value Store? -/
def mutatesStorage : Event T → Bool
  | .storageSetItem _ _ => true
  | .storageRemoveItem _ => true
  | _ => false

/-- Concrete collaborator over raw strings: the identity encoding, with a
decoder and validator that always succeed.  Used for concrete runs. -/
def idCollab : Collab String String :=
  { jsonParse := some, stringify := id, schemaParse := some }

/-- Concrete collaborator over naturals: a partial decoder recognising the
raw strings `"42"` and `"999"` only, `toString` as the encoder, and a
validator accepting only values below 100.  Used for concrete runs exercising
decode failures and validation failures. -/
def natCollab : Collab Nat Nat :=
  { jsonParse := fun s => if s = "42" then some 42 else if s = "999" then some 999 else none
    stringify := toString
    schemaParse := fun d => if d < 100 then some d else none }

/-- A storage with no entries. -/
def emptyStorage : String → Option String := fun _ => none

/-- A storage whose every entry is the empty string. -/
def emptyStringStorage : String → Option String := fun _ => some ""

/-- A storage holding `"saved"` at every key (in particular at `"k"`). -/
def savedStorage : String → Option String := fun _ => some "saved"

/-- C1 scenario: construct at key `"k"` with default `"dflt"` and persistence
enabled against an empty storage, call `set "other"`, then call `clear`. -/
def c1Run : CellState String × List (Event String) :=
  (CellState.set idCollab ⟨"k", false, "dflt", emptyStorage⟩ "other").1.clear

/-- C2 scenario: construction at key `"k"` with persistence enabled. -/
def c2Construction : List (Event String) × Except ThrownError (CellState String) :=
  storedWritable idCollab "k" "d" false emptyStorage

/-- C3 scenario: construction at key `"k"` with `disableLocalStorage = true`
against a storage that does hold an entry at `"k"`. -/
def c3Construction : List (Event String) × Except ThrownError (CellState String) :=
  storedWritable idCollab "k" "d" true savedStorage

/-- C3 scenario, continued: `clear` on the cell the construction returned. -/
def c3Run : CellState String × List (Event String) :=
  CellState.clear ⟨"k", true, "d", savedStorage⟩

/-- C1: the claim says `clear()` resets the current value to `defaultValue`
and notifies subscribers (the README documents exactly that); the code's
`clear` body is only `localStorage.removeItem(key)`.  Evaluating the code on
the scenario — construct at `"k"` with default `"dflt"`, `set "other"`, then
`clear` — the current value stays `"other"`, the `clear` call's whole trace is
the one store removal (no `w.set`, so no subscriber notification), and the
entry at `"k"` is gone. -/
theorem clear_leaves_current_untouched :
    c1Run.1.current = "other" ∧
    c1Run.2 = [Event.storageRemoveItem "k"] ∧
    c1Run.1.storage "k" = none := by
  refine ⟨rfl, rfl, ?_⟩
  simp [c1Run, CellState.clear, CellState.set, emptyStorage, idCollab]

/-- C2: the claim says construction with persistence enabled registers a
cross-context change listener for `key` (the README documents automatic
cross-tab synchronization); the code registers nothing.  The complete
construction trace is the single `localStorage.getItem` read — in particular
it contains no listener registration. -/
theorem construction_registers_no_listener :
    c2Construction.1 = [Event.storageGetItem "k" none] ∧
    c2Construction.2 = Except.ok ⟨"k", false, "d", emptyStorage⟩ :=
  ⟨rfl, rfl⟩

/-- C3: the claim says that with persistence disabled no operation reaches the
Key-Value Store (the README: passing `true` disables all interaction with
localStorage); but `clear`'s `localStorage.removeItem(key)` is unguarded.
Construction with `disableLocalStorage = true` indeed performs no store access,
yet `clear` on the returned cell issues a store removal and deletes the entry
at `"k"`. -/
theorem clear_touches_storage_when_disabled :
    c3Construction.1 = [] ∧
    c3Construction.2 = Except.ok ⟨"k", true, "d", savedStorage⟩ ∧
    c3Run.2 = [Event.storageRemoveItem "k"] ∧
    c3Run.1.storage "k" = none := by
  refine ⟨rfl, rfl, rfl, ?_⟩
  simp [c3Run, CellState.clear]

/-- C4, counterexample: a stored entry that is the empty string cannot be
decoded (`JSON.parse("")` throws, here `natCollab.jsonParse "" = none`), yet
construction does not propagate any error: it returns a cell seeded with the
default value, because the JavaScript truthiness test `stored ?` treats the
empty string as absent. -/
theorem empty_entry_constructs_ok_not_error :
    emptyStringStorage "k" = some "" ∧
    natCollab.jsonParse "" = none ∧
    (storedWritable natCollab "k" 7 false emptyStringStorage).2 =
      Except.ok ⟨"k", false, 7, emptyStringStorage⟩ ∧
    ¬ ∃ e, (storedWritable natCollab "k" 7 false emptyStringStorage).2 =
      Except.error e := by
  refine ⟨rfl, by decide, rfl, ?_⟩
  rintro ⟨e, he⟩
  rw [show (storedWritable natCollab "k" 7 false emptyStringStorage).2 =
      Except.ok ⟨"k", false, 7, emptyStringStorage⟩ from rfl] at he
  exact Except.noConfusion he

/-- C4, amended: for every key whose stored entry is a NON-EMPTY string that
either cannot be decoded, or decodes to data the schema rejects, construction
with persistence enabled propagates the decode (respectively validation) error
and produces no cell handle. -/
theorem construct_error_on_invalid_nonempty_entry (C : Collab J T) (key : String)
    (initialValue : T) (storage : String → Option String) (s : String)
    (hs : storage key = some s) (hne : s.isEmpty = false) :
    (C.jsonParse s = none →
      (storedWritable C key initialValue false storage).2 =
        Except.error ThrownError.jsonSyntaxError) ∧
    (∀ d, C.jsonParse s = some d → C.schemaParse d = none →
      (storedWritable C key initialValue false storage).2 =
        Except.error ThrownError.zodParseError) := by
  constructor
  · intro hj
    simp [storedWritable, hs, hne, hj]
  · intro d hj hv
    simp [storedWritable, hs, hne, hj, hv]

/-- C4, witness: at key `"k"` the entry `"abc"` fails decoding and the entry
`"999"` decodes but fails validation (the schema accepts only naturals below
100); construction propagates the respective error. -/
theorem construct_error_on_invalid_nonempty_entry_witness :
    (storedWritable natCollab "k" 7 false (fun _ => some "abc")).2 =
      Except.error ThrownError.jsonSyntaxError ∧
    (storedWritable natCollab "k" 7 false (fun _ => some "999")).2 =
      Except.error ThrownError.zodParseError :=
  ⟨(construct_error_on_invalid_nonempty_entry natCollab "k" 7 (fun _ => some "abc")
      "abc" rfl rfl).1 (by decide),
    (construct_error_on_invalid_nonempty_entry natCollab "k" 7 (fun _ => some "999")
      "999" rfl rfl).2 999 (by decide) (by decide)⟩

/-- C5: with persistence enabled, after `set v` returns, the storage entry at
`key` decodes (by the inverse of the write encoding) and validates to `v`
itself: the hypotheses say the decoder inverts the encoder at `v` and that `v`
is valid for the schema. -/
theorem set_store_roundtrip (C : Collab J T) (c : CellState T) (v : T) (d : J)
    (hdis : c.disableLocalStorage = false)
    (hdec : C.jsonParse (C.stringify v) = some d)
    (hval : C.schemaParse d = some v) :
    (((CellState.set C c v).1.storage c.key).bind C.jsonParse).bind C.schemaParse
      = some v := by
  simp [CellState.set, hdis, hdec, hval]

/-- C5, witness: the round-trip at the concrete cell `⟨"k", false, "init", ∅⟩`
with the identity collaborators and `v = "v"`. -/
theorem set_store_roundtrip_witness :
    (((CellState.set idCollab ⟨"k", false, "init", emptyStorage⟩ "v").1.storage
        "k").bind idCollab.jsonParse).bind idCollab.schemaParse = some "v" :=
  set_store_roundtrip idCollab ⟨"k", false, "init", emptyStorage⟩ "v" "v" rfl rfl rfl

/-- C6: after `update f` returns, the current value is `f` of the previous
value, and (persistence being enabled) the storage entry at `key`
decodes-and-validates to that same value. -/
theorem update_applies_updater_and_persists (C : Collab J T) (c : CellState T)
    (f : T → T) (d : J)
    (hdis : c.disableLocalStorage = false)
    (hdec : C.jsonParse (C.stringify (f c.current)) = some d)
    (hval : C.schemaParse d = some (f c.current)) :
    (CellState.update C c f).1.current = f c.current ∧
    (((CellState.update C c f).1.storage c.key).bind C.jsonParse).bind C.schemaParse
      = some (f c.current) := by
  constructor
  · simp [CellState.update, hdis]
  · simp [CellState.update, hdis, hdec, hval]

/-- C6, witness: updating the cell `⟨"k", false, "a", ∅⟩` with the appender
`fun s => s ++ "!"` yields current value `"a!"`, mirrored in storage. -/
theorem update_applies_updater_and_persists_witness :
    (CellState.update idCollab ⟨"k", false, "a", emptyStorage⟩
        (fun s => s ++ "!")).1.current = "a!" ∧
    (((CellState.update idCollab ⟨"k", false, "a", emptyStorage⟩
        (fun s => s ++ "!")).1.storage "k").bind idCollab.jsonParse).bind
        idCollab.schemaParse = some "a!" :=
  update_applies_updater_and_persists idCollab ⟨"k", false, "a", emptyStorage⟩
    (fun s => s ++ "!") "a!" rfl rfl rfl

/-- C7: constructing against a key with no stored entry yields a cell whose
current value is the supplied default, whatever the persistence flag. -/
theorem construct_default_when_no_entry (C : Collab J T) (key : String)
    (initialValue : T) (disableLocalStorage : Bool)
    (storage : String → Option String) (h : storage key = none) :
    (storedWritable C key initialValue disableLocalStorage storage).2 =
      Except.ok ⟨key, disableLocalStorage, initialValue, storage⟩ := by
  cases disableLocalStorage <;> simp [storedWritable, h]

/-- C7, witness: construction at `"k"` against the empty storage returns the
cell seeded with the default `"d"`. -/
theorem construct_default_when_no_entry_witness :
    (storedWritable idCollab "k" "d" false emptyStorage).2 =
      Except.ok ⟨"k", false, "d", emptyStorage⟩ :=
  construct_default_when_no_entry idCollab "k" "d" false emptyStorage rfl

/-- C9: a stored entry that exists but is the empty string is treated as
absent: construction succeeds with the default value, its trace is the single
storage read, and in particular neither `JSON.parse` nor `schema.parse` is
ever invoked. -/
theorem construct_empty_entry_as_absent (C : Collab J T) (key : String)
    (initialValue : T) (storage : String → Option String)
    (h : storage key = some "") :
    (storedWritable C key initialValue false storage).2 =
      Except.ok ⟨key, false, initialValue, storage⟩ ∧
    (storedWritable C key initialValue false storage).1 =
      [Event.storageGetItem key (some "")] ∧
    (∀ s, Event.jsonParseCall s ∉ (storedWritable C key initialValue false storage).1) ∧
    Event.schemaParseCall ∉ (storedWritable C key initialValue false storage).1 := by
  have h0 : "".isEmpty = true := rfl
  simp [storedWritable, h, h0]

/-- C9, witness: against the storage that holds `""` at every key,
construction at `"k"` returns the default-seeded cell and calls neither the
decoder nor the validator. -/
theorem construct_empty_entry_as_absent_witness :
    (storedWritable idCollab "k" "d" false emptyStringStorage).2 =
      Except.ok ⟨"k", false, "d", emptyStringStorage⟩ ∧
    (storedWritable idCollab "k" "d" false emptyStringStorage).1 =
      [Event.storageGetItem "k" (some "")] ∧
    (∀ s, Event.jsonParseCall s ∉
      (storedWritable idCollab "k" "d" false emptyStringStorage).1) ∧
    Event.schemaParseCall ∉
      (storedWritable idCollab "k" "d" false emptyStringStorage).1 :=
  construct_empty_entry_as_absent idCollab "k" "d" emptyStringStorage rfl

/-- Every single handle call's trace has each store write preceded by the
in-memory writable update whose value it encodes. -/
theorem applyOp_memUpdateBeforePersist (C : Collab J T) (c : CellState T)
    (op : Op T) : memUpdateBeforePersist C (applyOp C c op).2 := by
  cases op with
  | set v =>
    rcases hd : c.disableLocalStorage with _ | _
    · have htr : (applyOp C c (Op.set v)).2
          = [Event.writableSet v, Event.storageSetItem c.key (C.stringify v)] := by
        simp [applyOp, CellState.set, hd]
      intro j k x h
      rw [htr] at h
      match j with
      | 0 => simp at h
      | 1 =>
        simp only [List.getElem?_cons_succ, List.getElem?_cons_zero,
          Option.some.injEq] at h
        injection h with h1 h2
        exact ⟨0, v, Nat.zero_lt_one, by rw [htr]; rfl, h2.symm⟩
      | j + 2 => simp at h
    · have htr : (applyOp C c (Op.set v)).2 = [Event.writableSet v] := by
        simp [applyOp, CellState.set, hd]
      intro j k x h
      rw [htr] at h
      match j with
      | 0 => simp at h
      | j + 1 => simp at h
  | update f =>
    rcases hd : c.disableLocalStorage with _ | _
    · have htr : (applyOp C c (Op.update f)).2
          = [Event.writableSet (f c.current),
              Event.storageSetItem c.key (C.stringify (f c.current))] := by
        simp [applyOp, CellState.update, hd]
      intro j k x h
      rw [htr] at h
      match j with
      | 0 => simp at h
      | 1 =>
        simp only [List.getElem?_cons_succ, List.getElem?_cons_zero,
          Option.some.injEq] at h
        injection h with h1 h2
        exact ⟨0, f c.current, Nat.zero_lt_one, by rw [htr]; rfl, h2.symm⟩
      | j + 2 => simp at h
    · have htr : (applyOp C c (Op.update f)).2 = [Event.writableSet (f c.current)] := by
        simp [applyOp, CellState.update, hd]
      intro j k x h
      rw [htr] at h
      match j with
      | 0 => simp at h
      | j + 1 => simp at h
  | clear =>
    intro j k x h
    simp only [applyOp, CellState.clear] at h
    match j with
    | 0 => simp at h
    | j + 1 => simp at h

/-- C8: running any sequence of handle calls produces exactly the
concatenation, in call order, of the individual calls' traces, and within
every individual call's trace the in-memory update (the subscribers'
notification) strictly precedes the store write that persists its value. -/
theorem calls_in_order_mem_update_before_write (C : Collab J T) (c : CellState T)
    (ops : List (Op T)) :
    (run C c ops).2 = (callTraces C c ops).flatten ∧
    ∀ i, memUpdateBeforePersist C ((callTraces C c ops).getD i []) := by
  induction ops generalizing c with
  | nil =>
    refine ⟨rfl, fun i j k x h => ?_⟩
    simp [callTraces] at h
  | cons op ops ih =>
    refine ⟨?_, fun i => ?_⟩
    · simp [run, callTraces, (ih (applyOp C c op).1).1]
    · cases i with
      | zero => simpa [callTraces] using applyOp_memUpdateBeforePersist C c op
      | succ i => simpa [callTraces] using (ih (applyOp C c op).1).2 i

/-- C10: construction never writes to or removes from the Key-Value Store:
no event of its trace is a store mutation, and when it returns a cell that
cell's captured storage is the given one, unchanged at every key — whatever
the key, collaborators, default value and persistence flag, and whether or
not a (valid or invalid) entry was found. -/
theorem construct_never_mutates_storage (C : Collab J T) (key : String)
    (initialValue : T) (disableLocalStorage : Bool)
    (storage : String → Option String) :
    (∀ e ∈ (storedWritable C key initialValue disableLocalStorage storage).1,
      mutatesStorage e = false) ∧
    (∀ cell, (storedWritable C key initialValue disableLocalStorage storage).2 =
        Except.ok cell → ∀ k, cell.storage k = storage k) := by
  cases disableLocalStorage with
  | true =>
    refine ⟨?_, ?_⟩
    · intro e he
      simp [storedWritable] at he
    · intro cell hcell k
      simp [storedWritable] at hcell
      subst hcell
      rfl
  | false =>
    rcases hs : storage key with _ | s
    · refine ⟨?_, ?_⟩
      · intro e he
        simp [storedWritable, hs] at he
        simp [he, mutatesStorage]
      · intro cell hcell k
        simp [storedWritable, hs] at hcell
        subst hcell
        rfl
    · rcases hse : s.isEmpty with _ | _
      · rcases hj : C.jsonParse s with _ | d
        · refine ⟨?_, ?_⟩
          · intro e he
            simp [storedWritable, hs, hse, hj] at he
            rcases he with he | he <;> simp [he, mutatesStorage]
          · intro cell hcell k
            simp [storedWritable, hs, hse, hj] at hcell
        · rcases hv : C.schemaParse d with _ | v
          · refine ⟨?_, ?_⟩
            · intro e he
              simp [storedWritable, hs, hse, hj, hv] at he
              rcases he with he | he | he <;> simp [he, mutatesStorage]
            · intro cell hcell k
              simp [storedWritable, hs, hse, hj, hv] at hcell
          · refine ⟨?_, ?_⟩
            · intro e he
              simp [storedWritable, hs, hse, hj, hv] at he
              rcases he with he | he | he <;> simp [he, mutatesStorage]
            · intro cell hcell k
              simp [storedWritable, hs, hse, hj, hv] at hcell
              subst hcell
              rfl
      · refine ⟨?_, ?_⟩
        · intro e he
          simp [storedWritable, hs, hse] at he
          simp [he, mutatesStorage]
        · intro cell hcell k
          simp [storedWritable, hs, hse] at hcell
          subst hcell
          rfl

end SvelteStoredWritable
